import Mathlib

/-!
Shallow embedding of the resilient gateway-orchestration core of the
payment-gateway repository, together with theorems settling the frozen
claims about it.

Conventions of the embedding:
* Go maps are modelled as association lists (`mapLookup` / `mapInsert`);
  a Go map read of a missing key yields the zero value (`lookupD`).
* Go `error` values are modelled by the inductive `GoError`; wrapping with
  `fmt.Errorf("...: %w", err)` is the `wrap` constructor and `errors.Is`
  is `GoError.is`.
* Machine integers (`int`) are modelled as `Int` (Go ints are 64-bit here;
  the only place width matters, `strconv.Atoi`, clamps at `2^63`).
* `float64` amounts are carried opaquely (no arithmetic is ever performed
  on them in the embedded code), so they are represented by `Int`.
* Time (`time.Time` / `time.Duration`) is modelled by `Nat` seconds; the
  Go zero `time.Time` is `0`.
* Concurrency is not modelled: locks are dropped and each embedded
  operation is one atomic step, matching a fixed interleaving-free run.
-/

set_option autoImplicit false
set_option linter.unusedVariables false

namespace PaymentGateway

/-! ### Go map helpers (association lists) -/

/-- Lookup in an association list (Go map read, key present check). -/
def mapLookup {κ β : Type} [DecidableEq κ] (m : List (κ × β)) (k : κ) : Option β :=
  match m with
  | [] => none
  | (k', v) :: t => if k' = k then some v else mapLookup t k

/-- Insert-or-replace in an association list (Go map write). -/
def mapInsert {κ β : Type} [DecidableEq κ] (k : κ) (v : β) (m : List (κ × β)) :
    List (κ × β) :=
  match m with
  | [] => [(k, v)]
  | (k', v') :: t => if k' = k then (k, v) :: t else (k', v') :: mapInsert k v t

/-- Go map read returning the zero value for a missing key. -/
def lookupD {κ β : Type} [DecidableEq κ] (m : List (κ × β)) (k : κ) (d : β) : β :=
  (mapLookup m k).getD d

/-! ### Go errors -/

/-- Go `error` values as they occur in the embedded code.
`wrap` is `fmt.Errorf("<ctx>: %w", inner)`; `retriesExhausted` is the
`fmt.Errorf("operation failed after %d attempts: %w", maxRetries, err)`
of `RetryOperationWithBackoff` (with `none` for a nil wrapped error);
`syntaxError`/`rangeError` are `strconv.NumError` values. -/
inductive GoError : Type where
  | msg (s : String)
  | wrap (ctx : String) (inner : GoError)
  | noAvailableGateway
  | openState
  | tooManyRequests
  | retriesExhaustedNil (attempts : Nat)
  | retriesExhausted (attempts : Nat) (last : GoError)
  | syntaxError (fn input : String)
  | rangeError (fn input : String)
  deriving DecidableEq, Repr

/-- The `Error()` string of a `GoError` (as used for
`UpdateTransactionStatus(txID, "failed", err.Error())`). -/
def errString : GoError → String
  | .msg s => s
  | .wrap ctx inner => ctx ++ ": " ++ errString inner
  | .noAvailableGateway => "no available gateway found"
  | .openState => "circuit breaker is open"
  | .tooManyRequests => "too many requests"
  | .retriesExhaustedNil n =>
      "operation failed after " ++ toString n ++ " attempts: %!w(<nil>)"
  | .retriesExhausted n inner =>
      "operation failed after " ++ toString n ++ " attempts: " ++ errString inner
  | .syntaxError fn input =>
      "strconv." ++ fn ++ ": parsing \"" ++ input ++ "\": invalid syntax"
  | .rangeError fn input =>
      "strconv." ++ fn ++ ": parsing \"" ++ input ++ "\": value out of range"

/-- `errors.Is`: unwrap chain comparison against a sentinel error. -/
def GoError.is (e target : GoError) : Bool :=
  e == target ||
    match e with
    | .wrap _ inner => inner.is target
    | .retriesExhausted _ inner => inner.is target
    | _ => false

/-! ### Data model (internal/models/models.go) -/

/-- `models.User` (time fields omitted: never read by the embedded code). -/
structure User : Type where
  id : Int
  username : String
  email : String
  countryID : Int
  deriving DecidableEq, Repr

/-- `models.GatewayPriority`. -/
structure GatewayPriority : Type where
  gatewayID : Int
  name : String
  priority : Int
  format : String
  deriving DecidableEq, Repr

/-- `models.Transaction` (time fields omitted; the `float64` amount is
carried opaquely as `Int`). -/
structure Transaction : Type where
  id : Int
  amount : Int
  currency : String
  type : String
  status : String
  userID : Int
  gatewayID : Int
  countryID : Int
  referenceID : String
  errorMessage : String
  deriving DecidableEq, Repr

/-- `models.TransactionRequest`. -/
structure TransactionRequest : Type where
  userID : Int
  amount : Int
  currency : String
  deriving DecidableEq, Repr

/-- `models.TransactionResponse`. -/
structure TransactionResponse : Type where
  status : String
  transactionID : Int
  message : String
  redirectURL : String
  deriving DecidableEq, Repr

/-- `models.CallbackData`. -/
structure CallbackData : Type where
  transactionID : Int
  status : String
  message : String
  referenceID : String
  gatewayID : String
  timestamp : String
  deriving DecidableEq, Repr

/-- `consts.Deposit` from the `internal/consts` package (the transaction
type and status string constants; the package has no `Failed` constant —
the service writes the literal `"failed"` directly). -/
def consts.Deposit : String := "deposit"

/-- `consts.Withdrawal` from the `internal/consts` package. -/
def consts.Withdrawal : String := "withdrawal"

/-- `consts.Pending` from the `internal/consts` package. -/
def consts.Pending : String := "pending"

/-- `consts.Processing` from the `internal/consts` package. -/
def consts.Processing : String := "processing"

/-- `consts.Completed` from the `internal/consts` package. -/
def consts.Completed : String := "completed"

/-! ### Gateway provider capability (internal/gateway/interface.go)

A `Provider` is dynamic-dispatch capability in Go.  For a single embedded
call the relevant behaviour of a provider is: its identity/name/format,
the point-in-time result of its availability probe, and the outcome of a
deposit or withdrawal call (the claims all fix "a fixed health/probe
state", so these are fields). -/

/-- A registered payment provider, with its probe result and the outcome
its `ProcessDeposit`/`ProcessWithdrawal` would return for this request
(`none` inside `ok` models a nil response pointer with nil error). -/
structure Provider : Type where
  id : String
  name : String
  dataFormat : String
  isAvailable : Bool
  depositResult : Except GoError (Option TransactionResponse)
  withdrawResult : Except GoError (Option TransactionResponse)

/-! ### Persistence collaborator (db/mock.go, the repository's own
`DBInterface` implementation) -/

/-- The state of `db.MockDB` (mutexes dropped). -/
structure MockDBState : Type where
  users : List (Int × User)
  gatewaysByCountry : List (Int × List GatewayPriority)
  transactions : List (Int × Transaction)
  nextTxID : Int
  deriving DecidableEq, Repr

namespace MockDB

/-- `MockDB.GetUserByID`: `sql.ErrNoRows` if absent. -/
def GetUserByID (db : MockDBState) (userID : Int) : Except GoError User :=
  match mapLookup db.users userID with
  | some u => .ok u
  | none => .error (.msg "sql: no rows in result set")

/-- `MockDB.GetGatewaysByPriority`: empty list (no error) if the country is
unknown. -/
def GetGatewaysByPriority (db : MockDBState) (countryID : Int) :
    Except GoError (List GatewayPriority) :=
  .ok (lookupD db.gatewaysByCountry countryID [])

/-- `MockDB.CreateTransaction`: assigns `nextTxID`, stores the record, never
fails. -/
def CreateTransaction (db : MockDBState) (t : Transaction) :
    MockDBState × Except GoError Int :=
  let id := db.nextTxID
  let t' := { t with id := id }
  ({ db with
      transactions := mapInsert id t' db.transactions,
      nextTxID := id + 1 },
    .ok id)

/-- `MockDB.UpdateTransactionStatus`: errors if the transaction is unknown,
otherwise overwrites status and error message. -/
def UpdateTransactionStatus (db : MockDBState) (txID : Int)
    (status errorMsg : String) : MockDBState × Except GoError Unit :=
  match mapLookup db.transactions txID with
  | none => (db, .error (.msg "transaction not found"))
  | some t =>
      let t' := { t with status := status, errorMessage := errorMsg }
      ({ db with transactions := mapInsert txID t' db.transactions }, .ok ())

/-- `MockDB.UpdateTransactionReference`: errors if the transaction is
unknown, otherwise overwrites the reference field. -/
def UpdateTransactionReference (db : MockDBState) (txID : Int)
    (referenceID : String) : MockDBState × Except GoError Unit :=
  match mapLookup db.transactions txID with
  | none => (db, .error (.msg "transaction not found"))
  | some t =>
      let t' := { t with referenceID := referenceID }
      ({ db with transactions := mapInsert txID t' db.transactions }, .ok ())

end MockDB

/-! ### Gateway Registry & Selector (internal/gateway, `Selector`) -/

/-- The mutable state of `gateway.Selector` (the `sync.RWMutex` is dropped;
each operation is one atomic step). -/
structure SelectorState : Type where
  providers : List (String × Provider)
  healthStatus : List (String × Bool)

/-- `gateway.NewSelector`. -/
def NewSelector : SelectorState := ⟨[], []⟩

/-- `Selector.RegisterProvider`: stores the provider under its ID and marks
it healthy. -/
def RegisterProvider (sel : SelectorState) (p : Provider) : SelectorState :=
  { providers := mapInsert p.id p sel.providers,
    healthStatus := mapInsert p.id true sel.healthStatus }

/-- `Selector.MarkGatewayDown`: `s.healthStatus[gatewayID] = false`. -/
def MarkGatewayDown (sel : SelectorState) (gatewayID : String) : SelectorState :=
  { sel with healthStatus := mapInsert gatewayID false sel.healthStatus }

/-- `Selector.MarkGatewayUp`: `s.healthStatus[gatewayID] = true`. -/
def MarkGatewayUp (sel : SelectorState) (gatewayID : String) : SelectorState :=
  { sel with healthStatus := mapInsert gatewayID true sel.healthStatus }

/-- `Selector.GetProviderByID`. -/
def GetProviderByID (sel : SelectorState) (id : String) : Except GoError Provider :=
  match mapLookup sel.providers id with
  | some p => .ok p
  | none => .error (.msg ("provider with ID " ++ id ++ " not found"))

/-- The comparison handed to `sort.Slice` in `SelectGateway`
(`gateways[i].Priority < gateways[j].Priority`), as the non-strict order it
induces on the sorted output: consecutive elements `a, b` of the output
satisfy `¬(b.Priority < a.Priority)`, i.e. `a.Priority ≤ b.Priority`. -/
def priorityLe (a b : GatewayPriority) : Prop := a.priority ≤ b.priority

instance : DecidableRel priorityLe :=
  fun a b => (inferInstance : Decidable (a.priority ≤ b.priority))

instance : IsTotal GatewayPriority priorityLe :=
  ⟨fun a b => Int.le_total a.priority b.priority⟩

instance : IsTrans GatewayPriority priorityLe :=
  ⟨fun _ _ _ hab hbc => le_trans hab hbc⟩

/-- The full postcondition Go's `sort.Slice` guarantees for the call at
`SelectGateway`: the output is a permutation of the input, non-decreasing in
priority rank.  `sort.Slice` explicitly does NOT guarantee stability (that
is `sort.SliceStable`), so this contract is all the code may rely on. -/
def sortSlicePost (l out : List GatewayPriority) : Prop :=
  out.Perm l ∧ List.Sorted priorityLe out

/-- Equal-priority entries keep their relative input order (the "stable
sort" property claimed by the spec): for every rank, the subsequence of
entries of that rank is unchanged. -/
def keepsTieOrder (l out : List GatewayPriority) : Prop :=
  ∀ p : Int, l.filter (fun g => g.priority == p) =
    out.filter (fun g => g.priority == p)

/-- The `sort.Slice(gateways, ...)` call of `SelectGateway`, embedded as a
deterministic sort meeting the `sort.Slice` contract (`sortSlicePost`).
No theorem below relies on any property of this function beyond
`sortSlicePost` — in particular not on the incidental stability of
insertion sort, which `sort.Slice` does not guarantee. -/
def sortGatewaysByPriority (l : List GatewayPriority) : List GatewayPriority :=
  List.insertionSort priorityLe l

/-- The candidate loop of `Selector.SelectGateway`: walk the sorted list,
skip unregistered identifiers, skip unhealthy ones (a missing health entry
reads as the zero value `false`), probe the first registered+healthy
candidate and return it if available, else continue. -/
def trySelect (sel : SelectorState) : List GatewayPriority → Except GoError Provider
  | [] => .error .noAvailableGateway
  | gw :: rest =>
    let providerID := toString gw.gatewayID
    match mapLookup sel.providers providerID with
    | none => trySelect sel rest
    | some provider =>
      if lookupD sel.healthStatus providerID false then
        if provider.isAvailable then .ok provider else trySelect sel rest
      else trySelect sel rest

/-- `Selector.SelectGateway` (the `txType` argument is accepted and, as in
the source, never used). -/
def SelectGateway (db : MockDBState) (sel : SelectorState) (countryID : Int)
    (txType : String) : Except GoError Provider :=
  match MockDB.GetGatewaysByPriority db countryID with
  | .error e => .error (.wrap "failed to get gateways" e)
  | .ok gateways =>
    if gateways.isEmpty then .error .noAvailableGateway
    else trySelect sel (sortGatewaysByPriority gateways)

/-- A priority-list entry qualifies for selection in selector state `sel`:
its identifier is registered, its health flag reads `true`, and the
provider's availability probe reports available. -/
def qualifies (sel : SelectorState) (gw : GatewayPriority) : Bool :=
  match mapLookup sel.providers (toString gw.gatewayID) with
  | some p => lookupD sel.healthStatus (toString gw.gatewayID) false && p.isAvailable
  | none => false

/-! ### Circuit Breaker Manager (internal/utils/resilience.go wrapping
sony/gobreaker)

The `gobreaker.CircuitBreaker` state machine is embedded from the library's
implementation, specialised to the settings `GetBreaker` configures:
`MaxRequests = 5`, `Interval = 30s`, `Timeout = 60s`, and the custom
`ReadyToTrip`.  Counts are `uint32` in the library and stay far below any
overflow here, so they are `Nat`. -/

/-- `Settings.MaxRequests` configured by `GetBreaker`. -/
def gbMaxRequests : Nat := 5

/-- `Settings.Interval` (closed-state count window), in seconds. -/
def gbInterval : Nat := 30

/-- `Settings.Timeout` (open-state cool-down), in seconds. -/
def gbTimeout : Nat := 60

/-- `gobreaker.Counts`. -/
structure Counts : Type where
  requests : Nat
  totalSuccesses : Nat
  totalFailures : Nat
  consecutiveSuccesses : Nat
  consecutiveFailures : Nat
  deriving DecidableEq, Repr

/-- `Counts.onRequest`. -/
def Counts.onRequest (c : Counts) : Counts :=
  { c with requests := c.requests + 1 }

/-- `Counts.onSuccess`. -/
def Counts.onSuccess (c : Counts) : Counts :=
  { c with
      totalSuccesses := c.totalSuccesses + 1,
      consecutiveSuccesses := c.consecutiveSuccesses + 1,
      consecutiveFailures := 0 }

/-- `Counts.onFailure`. -/
def Counts.onFailure (c : Counts) : Counts :=
  { c with
      totalFailures := c.totalFailures + 1,
      consecutiveFailures := c.consecutiveFailures + 1,
      consecutiveSuccesses := 0 }

/-- `Counts.clear`. -/
def Counts.clear : Counts := ⟨0, 0, 0, 0, 0⟩

/-- The `ReadyToTrip` configured in `GetBreaker`:
`counts.Requests >= 5 && float64(TotalFailures)/float64(Requests) >= 0.5`.
For `uint32` counts the `float64` comparison is exact and equivalent to
`2 * TotalFailures ≥ Requests`: when `Requests = 2·TotalFailures` the
quotient is exactly representable as `0.5`, and otherwise the true ratio
differs from `0.5` by at least `1/(2·Requests)`, far more than the
round-off of one division. -/
def readyToTrip (c : Counts) : Bool :=
  c.requests ≥ 5 && 2 * c.totalFailures ≥ c.requests

/-- `gobreaker.State`. -/
inductive GBState : Type where
  | closed
  | opened
  | halfOpen
  deriving DecidableEq, Repr

/-- One `gobreaker.CircuitBreaker` (for the fixed settings above).
`expiry = 0` models the zero `time.Time`. -/
structure Breaker : Type where
  state : GBState
  generation : Nat
  counts : Counts
  expiry : Nat
  deriving DecidableEq, Repr

/-- `CircuitBreaker.toNewGeneration`. -/
def toNewGeneration (b : Breaker) (now : Nat) : Breaker :=
  { b with
      generation := b.generation + 1,
      counts := Counts.clear,
      expiry :=
        match b.state with
        | .closed => now + gbInterval
        | .opened => now + gbTimeout
        | .halfOpen => 0 }

/-- `CircuitBreaker.setState`. -/
def setState (b : Breaker) (s : GBState) (now : Nat) : Breaker :=
  if b.state = s then b else toNewGeneration { b with state := s } now

/-- `CircuitBreaker.currentState`: generation roll-over in `closed`
(window expiry) and the `open → half-open` transition after the cool-down
(`expiry.Before(now)` is the strict `<`). -/
def currentState (b : Breaker) (now : Nat) : Breaker :=
  match b.state with
  | .closed => if b.expiry ≠ 0 ∧ b.expiry < now then toNewGeneration b now else b
  | .opened => if b.expiry < now then setState b .halfOpen now else b
  | .halfOpen => b

/-- `CircuitBreaker.onSuccess`. -/
def gbOnSuccess (b : Breaker) (now : Nat) : Breaker :=
  match b.state with
  | .closed => { b with counts := b.counts.onSuccess }
  | .halfOpen =>
      let b' := { b with counts := b.counts.onSuccess }
      if b'.counts.consecutiveSuccesses ≥ gbMaxRequests then
        setState b' .closed now
      else b'
  | .opened => b

/-- `CircuitBreaker.onFailure`: `ReadyToTrip` is consulted here — and only
here — so the breaker can trip only at the moment a failure is recorded. -/
def gbOnFailure (b : Breaker) (now : Nat) : Breaker :=
  match b.state with
  | .closed =>
      let b' := { b with counts := b.counts.onFailure }
      if readyToTrip b'.counts then setState b' .opened now else b'
  | .halfOpen => setState b .opened now
  | .opened => b

/-- `CircuitBreaker.afterRequest`. -/
def afterRequest (b : Breaker) (before : Nat) (success : Bool) (now : Nat) :
    Breaker :=
  let b' := currentState b now
  if b'.generation ≠ before then b'
  else if success then gbOnSuccess b' now else gbOnFailure b' now

/-- `gobreaker.CircuitBreaker.Execute` for one call at time `now`.
`opResult` is the value the wrapped operation returns if it runs (the
default `IsSuccessful` treats exactly `err == nil` as success); the middle
component reports whether the operation was invoked at all. -/
def gbExecute (b : Breaker) (now : Nat) (opResult : Except GoError Unit) :
    Breaker × Bool × Except GoError Unit :=
  let b₁ := currentState b now
  if b₁.state = .opened then (b₁, false, .error .openState)
  else if b₁.state = .halfOpen ∧ b₁.counts.requests ≥ gbMaxRequests then
    (b₁, false, .error .tooManyRequests)
  else
    let b₂ := { b₁ with counts := b₁.counts.onRequest }
    let success := match opResult with | .ok _ => true | .error _ => false
    (afterRequest b₂ b₁.generation success now, true, opResult)

/-- `gobreaker.NewCircuitBreaker` with `GetBreaker`'s settings, created at
time `now` (the constructor calls `toNewGeneration(time.Now())`). -/
def newBreaker (now : Nat) : Breaker :=
  toNewGeneration ⟨.closed, 0, Counts.clear, 0⟩ now

/-- `CircuitBreaker.GetBreaker`: fetch the per-gateway breaker, creating it
lazily with the default settings. -/
def GetBreaker (mgr : List (String × Breaker)) (gatewayID : String) (now : Nat) :
    Breaker :=
  (mapLookup mgr gatewayID).getD (newBreaker now)

/-- `CircuitBreaker.ExecuteWithCircuitBreaker`: run one operation through
the per-gateway breaker and store the updated breaker back. -/
def ExecuteWithCircuitBreaker (mgr : List (String × Breaker))
    (gatewayID : String) (now : Nat) (opResult : Except GoError Unit) :
    List (String × Breaker) × Bool × Except GoError Unit :=
  let b := GetBreaker mgr gatewayID now
  let r := gbExecute b now opResult
  (mapInsert gatewayID r.1 mgr, r.2.1, r.2.2)

/-! ### Retry Executor (internal/utils/resilience.go) -/

/-- The loop of `RetryOperationWithBackoff`: `k` iterations remain, the next
invocation is number `i` (0-based), `last` holds the error of the previous
failed attempt (`none` before the first).  Sleeping and the backoff/jitter
arithmetic affect no observable of the claims and are dropped; the result
pairs the returned error with the number of invocations performed.
`operation i` is the outcome of the `i`-th invocation. -/
def retryAux (operation : Nat → Except GoError Unit) (maxRetries : Nat) :
    Nat → Nat → Option GoError → Except GoError Unit × Nat
  | 0, _, last =>
      (.error (match last with
        | none => .retriesExhaustedNil maxRetries
        | some e => .retriesExhausted maxRetries e), 0)
  | k + 1, i, _ =>
      match operation i with
      | .ok _ => (.ok (), 1)
      | .error e =>
          let r := retryAux operation maxRetries k (i + 1) (some e)
          (r.1, r.2 + 1)

/-- `RetryOperationWithBackoff(operation, maxRetries, initialBackoff,
maxBackoff)`: up to `maxRetries` invocations; success returns immediately;
exhaustion returns `fmt.Errorf("operation failed after %d attempts: %w",
maxRetries, err)`. -/
def RetryOperationWithBackoff (operation : Nat → Except GoError Unit)
    (maxRetries : Nat) : Except GoError Unit × Nat :=
  retryAux operation maxRetries maxRetries 0 none

/-! ### strconv.Atoi and the service helper `atoi` -/

/-- Digits-to-value accumulator for `strconv.Atoi`. -/
def digitsToNat (ds : List Char) : Nat :=
  ds.foldl (fun acc c => acc * 10 + (c.toNat - '0'.toNat)) 0

/-- `s` is a decimal integer literal in `strconv.Atoi`'s syntax: an
optional sign followed by one or more ASCII digits. -/
def decimalIntLit (s : String) : Bool :=
  match s.data with
  | [] => false
  | c :: rest =>
      let ds := if c = '-' || c = '+' then rest else c :: rest
      !ds.isEmpty && ds.all Char.isDigit

/-- `strconv.Atoi` (equivalently `ParseInt(s, 10, 0)` with 64-bit `int`):
syntax errors yield value `0`, out-of-range values are clamped with a range
error, otherwise the signed value is returned. -/
def goAtoi (s : String) : Int × Option GoError :=
  match s.data with
  | [] => (0, some (.syntaxError "Atoi" s))
  | c :: rest =>
      let neg := c = '-'
      let ds := if c = '-' || c = '+' then rest else c :: rest
      if ds.isEmpty || !ds.all Char.isDigit then (0, some (.syntaxError "Atoi" s))
      else
        let n := digitsToNat ds
        if neg then
          if n > 2 ^ 63 then (-(2 ^ 63), some (.rangeError "Atoi" s))
          else (-(n : Int), none)
        else
          if n ≥ 2 ^ 63 then (2 ^ 63 - 1, some (.rangeError "Atoi" s))
          else ((n : Int), none)

/-- The service helper `atoi` (services package): `strconv.Atoi` with the
error silently discarded. -/
def atoi (s : String) : Int := (goAtoi s).1

/-! ### Transaction Orchestrator (services.TransactionService)

The service owns the DB, the selector and the circuit-breaker manager; one
embedded call threads all three.  The asynchronous `queueTransaction`
goroutine (Kafka publish) is a best-effort side channel outside the service
state and is not modelled. -/

/-- The state a `TransactionService` call reads and writes. -/
structure ServiceState : Type where
  db : MockDBState
  selector : SelectorState
  breakers : List (String × Breaker)

/-- The result of the closure `operation` that `ProcessDeposit` /
`ProcessWithdrawal` hand to the circuit breaker, as a function of the
provider call's outcome: a provider error is wrapped as
`"gateway processing failed: %w"`, success returns nil (the ignored
`UpdateTransactionReference` side effect is applied separately, iff the
operation was invoked). -/
def gatewayOpResult (r : Except GoError (Option TransactionResponse)) :
    Except GoError Unit :=
  match r with
  | .error e => .error (.wrap "gateway processing failed" e)
  | .ok _ => .ok ()

/-- The reference-saving side effect inside the closure: if the provider
returned a non-nil response with `TransactionID > 0` and a non-empty
`RedirectURL`, update the transaction's reference (error ignored). -/
def saveReference (db : MockDBState) (txID : Int)
    (r : Except GoError (Option TransactionResponse)) : MockDBState :=
  match r with
  | .ok (some resp) =>
      if resp.transactionID > 0 ∧ resp.redirectURL ≠ "" then
        (MockDB.UpdateTransactionReference db txID resp.redirectURL).1
      else db
  | _ => db

/-- The response value `ProcessDeposit` / `ProcessWithdrawal` return on the
success path (the closure's captured `response`). -/
def capturedResponse (r : Except GoError (Option TransactionResponse)) :
    Option TransactionResponse :=
  match r with
  | .ok resp => resp
  | .error _ => none

/-- Shared body of `TransactionService.ProcessDeposit` and
`ProcessWithdrawal` (the two functions are line-for-line duplicates up to
the transaction kind and which provider operation is called):
resolve user, select gateway, create a `pending` record, run the provider
call through the circuit breaker, then either mark the gateway down and
persist `failed`, or persist `processing`. -/
def processTransaction (s : ServiceState) (now : Nat) (req : TransactionRequest)
    (kind : String)
    (opOutcome : Provider → Except GoError (Option TransactionResponse)) :
    ServiceState × Except GoError (Option TransactionResponse) :=
  match MockDB.GetUserByID s.db req.userID with
  | .error e => (s, .error (.wrap "failed to get user" e))
  | .ok user =>
    match SelectGateway s.db s.selector user.countryID kind with
    | .error e => (s, .error (.wrap "failed to select gateway" e))
    | .ok provider =>
      let transaction : Transaction :=
        { id := 0, amount := req.amount, currency := req.currency,
          type := kind, status := consts.Pending, userID := user.id,
          gatewayID := atoi provider.id, countryID := user.countryID,
          referenceID := "", errorMessage := "" }
      match MockDB.CreateTransaction s.db transaction with
      | (db₁, .error e) =>
          ({ s with db := db₁ }, .error (.wrap "failed to create transaction" e))
      | (db₁, .ok txID) =>
        let cbr := ExecuteWithCircuitBreaker s.breakers provider.id now
          (gatewayOpResult (opOutcome provider))
        let db₂ := if cbr.2.1 then saveReference db₁ txID (opOutcome provider)
          else db₁
        match cbr.2.2 with
        | .error e =>
            let selector' := MarkGatewayDown s.selector provider.id
            let db₃ := (MockDB.UpdateTransactionStatus db₂ txID "failed"
              (errString e)).1
            (⟨db₃, selector', cbr.1⟩, .error e)
        | .ok _ =>
            let db₃ := (MockDB.UpdateTransactionStatus db₂ txID "processing" "").1
            (⟨db₃, s.selector, cbr.1⟩, .ok (capturedResponse (opOutcome provider)))

/-- `TransactionService.ProcessDeposit`. -/
def ProcessDeposit (s : ServiceState) (now : Nat) (req : TransactionRequest) :
    ServiceState × Except GoError (Option TransactionResponse) :=
  processTransaction s now req consts.Deposit Provider.depositResult

/-- `TransactionService.ProcessWithdrawal`. -/
def ProcessWithdrawal (s : ServiceState) (now : Nat) (req : TransactionRequest) :
    ServiceState × Except GoError (Option TransactionResponse) :=
  processTransaction s now req consts.Withdrawal Provider.withdrawResult

/-- `TransactionService.HandleCallback`: update the referenced
transaction's status (with the callback message as error detail unless the
status is completed/processing), then — only if the update succeeded and
the payload carries a gateway identifier — mark that gateway up. -/
def HandleCallback (s : ServiceState) (cb : CallbackData) :
    ServiceState × Except GoError Unit :=
  let status := cb.status
  let errorMsg :=
    if status ≠ consts.Completed ∧ status ≠ consts.Processing then cb.message
    else ""
  match MockDB.UpdateTransactionStatus s.db cb.transactionID status errorMsg with
  | (db', .error e) =>
      ({ s with db := db' }, .error (.wrap "failed to update transaction" e))
  | (db', .ok _) =>
      if cb.gatewayID ≠ "" then
        ({ db := db', selector := MarkGatewayUp s.selector cb.gatewayID,
           breakers := s.breakers }, .ok ())
      else
        ({ s with db := db' }, .ok ())

/-! ### Derived notions and concrete fixtures used by the theorems -/

instance {ε α : Type} [DecidableEq ε] [DecidableEq α] : DecidableEq (Except ε α) :=
  fun a b =>
    match a, b with
    | .error e₁, .error e₂ => decidable_of_iff (e₁ = e₂) (by simp)
    | .error _, .ok _ => isFalse (by simp)
    | .ok _, .error _ => isFalse (by simp)
    | .ok v₁, .ok v₂ => decidable_of_iff (v₁ = v₂) (by simp)

/-- The priority list the persistence collaborator supplies for a region
(`MockDB.GetGatewaysByPriority` never fails; unknown regions yield `[]`). -/
def gwsOf (db : MockDBState) (countryID : Int) : List GatewayPriority :=
  lookupD db.gatewaysByCountry countryID []

/-- Fixture: a registered provider whose calls fail. -/
def wProvFail : Provider :=
  ⟨"1", "PayPal", "application/json", true,
    .error (.msg "gateway unavailable"), .error (.msg "gateway unavailable")⟩

/-- Fixture: a registered provider whose calls succeed. -/
def wProvOk : Provider :=
  ⟨"2", "Stripe", "application/json", true,
    .ok (some ⟨"processing", 1, "ok", ""⟩), .ok (some ⟨"processing", 1, "ok", ""⟩)⟩

/-- Fixture: a provider whose identifier is not a decimal integer. -/
def wProvAlpha : Provider :=
  ⟨"PAYPAL-X", "PayPalX", "application/json", true, .ok none, .ok none⟩

/-- Fixture user in region 1. -/
def wUser : User := ⟨1, "user1", "user1@example.com", 1⟩

/-- Fixture user in region 77, for which no priority list exists. -/
def wUser2 : User := ⟨2, "user2", "user2@example.com", 77⟩

/-- Fixture DB: two users, one region with a two-entry priority list. -/
def wDB : MockDBState :=
  ⟨[(1, wUser), (2, wUser2)],
    [(1, [⟨1, "PayPal", 1, "application/json"⟩, ⟨2, "Stripe", 2, "application/json"⟩])],
    [], 10⟩

/-- Fixture selector with the two decimal-id providers registered. -/
def wSel : SelectorState :=
  RegisterProvider (RegisterProvider NewSelector wProvFail) wProvOk

/-- Fixture service state. -/
def wSvc : ServiceState := ⟨wDB, wSel, []⟩

/-- Fixture selector registering `wProvAlpha` under the priority-list key
`"1"` (as an arbitrary `SelectorInterface` implementation may). -/
def wSelAlpha : SelectorState := ⟨[("1", wProvAlpha)], [("1", true)]⟩

/-- Fixture service state for the non-decimal-identifier scenario. -/
def wSvcAlpha : ServiceState := ⟨wDB, wSelAlpha, []⟩

/-- Fixture transaction number 123, currently `processing`. -/
def wTx : Transaction := ⟨123, 100, "USD", "deposit", "processing", 1, 1, 1, "", ""⟩

/-- Fixture service state whose DB holds transaction 123. -/
def wSvcTx : ServiceState :=
  ⟨⟨[(1, wUser), (2, wUser2)],
      [(1, [⟨1, "PayPal", 1, "application/json"⟩, ⟨2, "Stripe", 2, "application/json"⟩])],
      [(123, wTx)], 124⟩,
    wSel, []⟩

/-- Fixture: one circuit-breaker manager step at time 100 for gateway "1". -/
def cbStep (mgr : List (String × Breaker)) (r : Except GoError Unit) :
    List (String × Breaker) :=
  (ExecuteWithCircuitBreaker mgr "1" 100 r).1

/-- Fixture: the manager after the outcome sequence fail, fail, fail,
success, success for gateway "1", all at time 100 (inside one 30s counting
window). -/
def cbMgr5 : List (String × Breaker) :=
  cbStep (cbStep (cbStep (cbStep (cbStep [] (.error (.msg "boom")))
    (.error (.msg "boom"))) (.error (.msg "boom"))) (.ok ())) (.ok ())

/-- Fixture: a breaker sitting in the open state until time 160. -/
def wOpenBreaker : Breaker := ⟨.opened, 3, Counts.clear, 160⟩

/-- Fixture: a closed breaker one failure away from tripping (4 requests,
4 failures in the current window, which expires at 130). -/
def wAlmostTripped : Breaker := ⟨.closed, 1, ⟨4, 0, 4, 0, 4⟩, 130⟩

/-- The record `ProcessDeposit`/`ProcessWithdrawal` construct once user
resolution and gateway selection have succeeded. -/
def pendingTx (req : TransactionRequest) (kind : String) (u : User)
    (p : Provider) : Transaction :=
  { id := 0, amount := req.amount, currency := req.currency, type := kind,
    status := consts.Pending, userID := u.id, gatewayID := atoi p.id,
    countryID := u.countryID, referenceID := "", errorMessage := "" }

/-! ## Helper lemmas -/

theorem mapLookup_mapInsert_self {κ β : Type} [DecidableEq κ]
    (m : List (κ × β)) (k : κ) (v : β) :
    mapLookup (mapInsert k v m) k = some v := by
  induction m with
  | nil => simp [mapLookup, mapInsert]
  | cons hd t ih =>
      obtain ⟨k', v'⟩ := hd
      by_cases h : k' = k <;> simp [mapLookup, mapInsert, h, ih]

theorem mapLookup_mapInsert_ne {κ β : Type} [DecidableEq κ]
    (m : List (κ × β)) (k k' : κ) (v : β) (h : k' ≠ k) :
    mapLookup (mapInsert k v m) k' = mapLookup m k' := by
  induction m with
  | nil => simp [mapLookup, mapInsert, Ne.symm h]
  | cons hd t ih =>
      obtain ⟨k₀, v₀⟩ := hd
      by_cases h₀ : k₀ = k
      · subst h₀; simp [mapLookup, mapInsert, Ne.symm h]
      · by_cases h₁ : k₀ = k' <;> simp [mapLookup, mapInsert, h₀, h₁, h, ih]

theorem updateStatus_lookup (db : MockDBState) (txID : Int) (st em : String)
    (t : Transaction) (h : mapLookup db.transactions txID = some t) :
    mapLookup ((MockDB.UpdateTransactionStatus db txID st em).1).transactions txID
      = some { t with status := st, errorMessage := em } := by
  simp [MockDB.UpdateTransactionStatus, h, mapLookup_mapInsert_self]

theorem updateReference_lookup (db : MockDBState) (txID : Int) (ref : String)
    (t : Transaction) (h : mapLookup db.transactions txID = some t) :
    mapLookup ((MockDB.UpdateTransactionReference db txID ref).1).transactions txID
      = some { t with referenceID := ref } := by
  simp [MockDB.UpdateTransactionReference, h, mapLookup_mapInsert_self]

theorem createTransaction_lookup (db : MockDBState) (t : Transaction) :
    mapLookup ((MockDB.CreateTransaction db t).1).transactions db.nextTxID
      = some { t with id := db.nextTxID } := by
  simp [MockDB.CreateTransaction, mapLookup_mapInsert_self]

/-- `saveReference` only ever rewrites the reference field of the record. -/
theorem saveReference_lookup (db : MockDBState) (txID : Int)
    (r : Except GoError (Option TransactionResponse)) (t : Transaction)
    (h : mapLookup db.transactions txID = some t) :
    ∃ ref, mapLookup (saveReference db txID r).transactions txID
      = some { t with referenceID := ref } := by
  match r with
  | .error _ => exact ⟨t.referenceID, by simp [saveReference, h]⟩
  | .ok none => exact ⟨t.referenceID, by simp [saveReference, h]⟩
  | .ok (some resp) =>
      by_cases hc : resp.transactionID > 0 ∧ resp.redirectURL ≠ ""
      · exact ⟨resp.redirectURL, by
          simp [saveReference, hc, updateReference_lookup db txID _ t h]⟩
      · exact ⟨t.referenceID, by simp [saveReference, hc, h]⟩

/-- Combined: after the optional in-closure reference write, the record
created for this request is still present with its original identity
fields. -/
theorem afterSave_lookup (c : Bool) (db : MockDBState) (txID : Int)
    (r : Except GoError (Option TransactionResponse)) (t : Transaction)
    (h : mapLookup db.transactions txID = some t) :
    ∃ ref, mapLookup
        ((if c then saveReference db txID r else db)).transactions txID
      = some { t with referenceID := ref } := by
  cases c with
  | false => exact ⟨t.referenceID, by simpa using h⟩
  | true => simpa using saveReference_lookup db txID r t h

/-- A non-qualifying head is skipped by the candidate loop. -/
theorem trySelect_cons_of_not_qualifies (sel : SelectorState)
    (gw : GatewayPriority) (rest : List GatewayPriority)
    (h : qualifies sel gw = false) :
    trySelect sel (gw :: rest) = trySelect sel rest := by
  unfold qualifies at h
  have hstep : trySelect sel (gw :: rest) =
      (match mapLookup sel.providers (toString gw.gatewayID) with
       | none => trySelect sel rest
       | some provider =>
         if lookupD sel.healthStatus (toString gw.gatewayID) false then
           if provider.isAvailable then .ok provider else trySelect sel rest
         else trySelect sel rest) := rfl
  rw [hstep]
  cases hl : mapLookup sel.providers (toString gw.gatewayID) with
  | none => simp
  | some p =>
      rw [hl] at h
      cases hh : lookupD sel.healthStatus (toString gw.gatewayID) false with
      | false => simp [hh]
      | true =>
          rw [hh] at h
          simp only [Bool.true_and] at h
          simp [hh, h]

/-- A qualifying head is selected by the candidate loop. -/
theorem trySelect_cons_of_qualifies (sel : SelectorState)
    (gw : GatewayPriority) (rest : List GatewayPriority) (p : Provider)
    (hl : mapLookup sel.providers (toString gw.gatewayID) = some p)
    (hh : lookupD sel.healthStatus (toString gw.gatewayID) false = true)
    (ha : p.isAvailable = true) :
    trySelect sel (gw :: rest) = .ok p := by
  have hstep : trySelect sel (gw :: rest) =
      (match mapLookup sel.providers (toString gw.gatewayID) with
       | none => trySelect sel rest
       | some provider =>
         if lookupD sel.healthStatus (toString gw.gatewayID) false then
           if provider.isAvailable then .ok provider else trySelect sel rest
         else trySelect sel rest) := rfl
  rw [hstep]
  simp [hl, hh, ha]

/-- If no entry qualifies, the candidate loop exhausts the list and fails
with `NoAvailableGateway`. -/
theorem trySelect_of_all_not_qualifies (sel : SelectorState) :
    ∀ l : List GatewayPriority, (∀ gw ∈ l, qualifies sel gw = false) →
      trySelect sel l = .error .noAvailableGateway := by
  intro l
  induction l with
  | nil => intro _; rfl
  | cons gw rest ih =>
      intro h
      rw [trySelect_cons_of_not_qualifies sel gw rest (h gw (by simp))]
      exact ih fun g hg => h g (by simp [hg])

/-- On a priority-sorted list with at least one qualifying entry, the
candidate loop returns the registered provider of a qualifying entry whose
priority rank is minimal among all qualifying entries. -/
theorem trySelect_min (sel : SelectorState) :
    ∀ l : List GatewayPriority, List.Sorted priorityLe l →
      (∃ gw ∈ l, qualifies sel gw = true) →
      ∃ g₀ ∈ l, ∃ p : Provider,
        qualifies sel g₀ = true ∧
        mapLookup sel.providers (toString g₀.gatewayID) = some p ∧
        trySelect sel l = .ok p ∧
        ∀ g' ∈ l, qualifies sel g' = true → g₀.priority ≤ g'.priority := by
  intro l
  induction l with
  | nil => rintro _ ⟨gw, hmem, _⟩; exact absurd hmem (List.not_mem_nil gw)
  | cons gw rest ih =>
      intro hs hex
      cases hq : qualifies sel gw with
      | true =>
          have hq' := hq
          unfold qualifies at hq'
          cases hl : mapLookup sel.providers (toString gw.gatewayID) with
          | none => rw [hl] at hq'; exact absurd hq' (by simp)
          | some p =>
              rw [hl] at hq'
              have hand : lookupD sel.healthStatus (toString gw.gatewayID) false = true
                  ∧ p.isAvailable = true := by simpa using hq'
              have hh := hand.1
              have ha := hand.2
              refine ⟨gw, by simp, p, hq, hl,
                trySelect_cons_of_qualifies sel gw rest p hl hh ha, ?_⟩
              intro g' hg' _
              rcases List.mem_cons.mp hg' with hg' | hg'
              · rw [hg']
              · exact (List.sorted_cons.mp hs).1 g' hg'
      | false =>
          have hex' : ∃ g ∈ rest, qualifies sel g = true := by
            rcases hex with ⟨g, hmem, hgq⟩
            rcases List.mem_cons.mp hmem with hg | hg
            · rw [hg] at hgq; rw [hgq] at hq; exact absurd hq (by simp)
            · exact ⟨g, hg, hgq⟩
          rcases ih (List.sorted_cons.mp hs).2 hex' with
            ⟨g₀, hg₀, p, hq₀, hl₀, htr, hmin⟩
          refine ⟨g₀, by simp [hg₀], p, hq₀, hl₀, ?_, ?_⟩
          · rw [trySelect_cons_of_not_qualifies sel gw rest hq]; exact htr
          · intro g' hg' hq'
            rcases List.mem_cons.mp hg' with hgg | hgg
            · rw [hgg] at hq'; rw [hq'] at hq; exact absurd hq (by simp)
            · exact hmin g' hgg hq'

/-- `SelectGateway` in terms of the fetched priority list. -/
theorem selectGateway_eq (db : MockDBState) (sel : SelectorState)
    (countryID : Int) (txType : String) :
    SelectGateway db sel countryID txType =
      if (gwsOf db countryID).isEmpty then .error .noAvailableGateway
      else trySelect sel (sortGatewaysByPriority (gwsOf db countryID)) := rfl

/-- When no entry of the region's priority list qualifies (in particular
when the list is empty), selection fails with `NoAvailableGateway`. -/
theorem selectGateway_none_qualify (db : MockDBState) (sel : SelectorState)
    (countryID : Int) (txType : String)
    (hall : ∀ gw ∈ gwsOf db countryID, qualifies sel gw = false) :
    SelectGateway db sel countryID txType = .error .noAvailableGateway := by
  cases hl : gwsOf db countryID with
  | nil => rw [selectGateway_eq, hl]; rfl
  | cons a t =>
      rw [selectGateway_eq, hl]
      have : ∀ g ∈ sortGatewaysByPriority (a :: t), qualifies sel g = false := by
        intro g hg
        exact hall g (by rw [hl]; simpa [sortGatewaysByPriority] using hg)
      simpa using trySelect_of_all_not_qualifies sel _ this

/-! ## Claim theorems -/

/-- C1: for every region whose priority list contains at least one entry
that is simultaneously registered, marked healthy and probe-available,
`SelectGateway` returns the registered provider of a qualifying entry of
minimal priority rank among all qualifying entries; and whenever the
region's list is empty or no entry qualifies, it fails with
`NoAvailableGateway`.  Determinism for a fixed health/probe state is
inherent: the embedded `SelectGateway` is a function of that state. -/
theorem selectGateway_lowest_rank (db : MockDBState) (sel : SelectorState)
    (countryID : Int) (txType : String) :
    ((∃ gw ∈ gwsOf db countryID, qualifies sel gw = true) →
      ∃ g₀ ∈ gwsOf db countryID, ∃ p : Provider,
        qualifies sel g₀ = true ∧
        mapLookup sel.providers (toString g₀.gatewayID) = some p ∧
        SelectGateway db sel countryID txType = .ok p ∧
        ∀ g' ∈ gwsOf db countryID, qualifies sel g' = true →
          g₀.priority ≤ g'.priority) ∧
    ((∀ gw ∈ gwsOf db countryID, qualifies sel gw = false) →
      SelectGateway db sel countryID txType = .error .noAvailableGateway) := by
  constructor
  · rintro ⟨gw, hmem, hq⟩
    have hne : (gwsOf db countryID).isEmpty = false := by
      cases hl : gwsOf db countryID with
      | nil => rw [hl] at hmem; exact absurd hmem (List.not_mem_nil gw)
      | cons a t => rfl
    have hsorted : List.Sorted priorityLe (sortGatewaysByPriority (gwsOf db countryID)) :=
      List.sorted_insertionSort priorityLe _
    have hex : ∃ g ∈ sortGatewaysByPriority (gwsOf db countryID),
        qualifies sel g = true :=
      ⟨gw, by simpa [sortGatewaysByPriority] using hmem, hq⟩
    rcases trySelect_min sel _ hsorted hex with ⟨g₀, hg₀, p, hq₀, hl₀, htr, hmin⟩
    refine ⟨g₀, by simpa [sortGatewaysByPriority] using hg₀, p, hq₀, hl₀, ?_, ?_⟩
    · rw [selectGateway_eq, hne]; simpa using htr
    · intro g' hg' hq'
      exact hmin g' (by simpa [sortGatewaysByPriority] using hg') hq'
  · exact selectGateway_none_qualify db sel countryID txType

/-- Witness for C1 at the concrete fixture: region 1 has a qualifying
entry and the theorem yields the minimal-rank selection; region 77 has no
entries and selection fails with `NoAvailableGateway`. -/
theorem selectGateway_lowest_rank_witness :
    (∃ gw ∈ gwsOf wDB 1, qualifies wSel gw = true) ∧
    (∃ g₀ ∈ gwsOf wDB 1, ∃ p : Provider,
        qualifies wSel g₀ = true ∧
        mapLookup wSel.providers (toString g₀.gatewayID) = some p ∧
        SelectGateway wDB wSel 1 "deposit" = .ok p ∧
        ∀ g' ∈ gwsOf wDB 1, qualifies wSel g' = true →
          g₀.priority ≤ g'.priority) ∧
    (∀ gw ∈ gwsOf wDB 77, qualifies wSel gw = false) ∧
    SelectGateway wDB wSel 77 "deposit" = .error .noAvailableGateway := by
  have ha : ∃ gw ∈ gwsOf wDB 1, qualifies wSel gw = true := by decide
  have hb : ∀ gw ∈ gwsOf wDB 77, qualifies wSel gw = false := by decide
  exact ⟨ha, (selectGateway_lowest_rank wDB wSel 1 "deposit").1 ha,
    hb, (selectGateway_lowest_rank wDB wSel 77 "deposit").2 hb⟩

/-- C6 counterexample: the spec claims the selection sort is stable.  The
code calls `sort.Slice`, whose contract (`sortSlicePost`) does not
guarantee stability — at the concrete two-entry list below with equal
priority ranks, the contract admits the tie-reversing output, so the
claimed tie-preservation is not ensured by the code. -/
theorem sortSlice_contract_admits_tie_reorder :
    sortSlicePost
        [⟨1, "PayPal", 1, "application/json"⟩, ⟨2, "Stripe", 1, "application/json"⟩]
        [⟨2, "Stripe", 1, "application/json"⟩, ⟨1, "PayPal", 1, "application/json"⟩] ∧
    ¬ keepsTieOrder
        [⟨1, "PayPal", 1, "application/json"⟩, ⟨2, "Stripe", 1, "application/json"⟩]
        [⟨2, "Stripe", 1, "application/json"⟩, ⟨1, "PayPal", 1, "application/json"⟩] := by
  refine ⟨⟨by decide, by decide⟩, fun h => absurd (h 1) (by decide)⟩

/-- C6 amended: `SelectGateway` sorts the fetched entries into an
ascending-by-priority-rank permutation (the full `sort.Slice` contract);
equal-rank entries are not guaranteed to keep the collaborator's order. -/
theorem selectGateway_sorts_ascending_perm (l : List GatewayPriority) :
    sortSlicePost l (sortGatewaysByPriority l) :=
  ⟨List.perm_insertionSort priorityLe l, List.sorted_insertionSort priorityLe l⟩

/-- C7 counterexample: `MarkGatewayDown` on a never-registered identifier
is not a no-op — it creates a health-map entry for that identifier, so the
health map does not hold entries only for registered providers. -/
theorem mark_unknown_changes_health_map :
    mapLookup NewSelector.providers "9" = none ∧
    (MarkGatewayDown NewSelector "9").healthStatus ≠ NewSelector.healthStatus ∧
    mapLookup (MarkGatewayDown NewSelector "9").healthStatus "9" = some false :=
  ⟨rfl, by decide, rfl⟩

/-- The candidate loop never reads the health flag of an unregistered
identifier, so writing that flag cannot change any loop outcome. -/
theorem trySelect_mark_unknown (sel : SelectorState) (id : String) (b : Bool)
    (h : mapLookup sel.providers id = none) :
    ∀ l : List GatewayPriority,
      trySelect { sel with healthStatus := mapInsert id b sel.healthStatus } l
        = trySelect sel l := by
  intro l
  induction l with
  | nil => rfl
  | cons gw rest ih =>
      have hstepL : trySelect { sel with healthStatus := mapInsert id b sel.healthStatus }
          (gw :: rest) =
          (match mapLookup sel.providers (toString gw.gatewayID) with
           | none => trySelect { sel with healthStatus := mapInsert id b sel.healthStatus } rest
           | some provider =>
             if lookupD (mapInsert id b sel.healthStatus) (toString gw.gatewayID) false then
               if provider.isAvailable then .ok provider
               else trySelect { sel with healthStatus := mapInsert id b sel.healthStatus } rest
             else trySelect { sel with healthStatus := mapInsert id b sel.healthStatus } rest) := rfl
      have hstepR : trySelect sel (gw :: rest) =
          (match mapLookup sel.providers (toString gw.gatewayID) with
           | none => trySelect sel rest
           | some provider =>
             if lookupD sel.healthStatus (toString gw.gatewayID) false then
               if provider.isAvailable then .ok provider
               else trySelect sel rest
             else trySelect sel rest) := rfl
      rw [hstepL, hstepR]
      cases hl : mapLookup sel.providers (toString gw.gatewayID) with
      | none => simpa using ih
      | some p =>
          have hne : toString gw.gatewayID ≠ id := by
            intro he
            rw [he, h] at hl
            cases hl
          have hD : lookupD (mapInsert id b sel.healthStatus) (toString gw.gatewayID) false
              = lookupD sel.healthStatus (toString gw.gatewayID) false := by
            unfold lookupD
            rw [mapLookup_mapInsert_ne sel.healthStatus id (toString gw.gatewayID) b hne]
          rw [hD]
          cases hh : lookupD sel.healthStatus (toString gw.gatewayID) false with
          | false => simp [hh, ih]
          | true =>
              cases hav : p.isAvailable with
              | false => simp [hh, hav, ih]
              | true => simp [hh, hav]

/-- C7 amended: marking an identifier that was never registered writes (or
overwrites) that identifier's health-map entry — the selector state does
change — but the marked entry is unreadable by selection (unregistered
identifiers are skipped before their health is consulted), so every
selection outcome is unchanged, and the providers registry is untouched. -/
theorem mark_unknown_selection_invariant (sel : SelectorState) (id : String)
    (h : mapLookup sel.providers id = none) :
    (∀ (db : MockDBState) (cid : Int) (ty : String),
        SelectGateway db (MarkGatewayDown sel id) cid ty
          = SelectGateway db sel cid ty) ∧
    (∀ (db : MockDBState) (cid : Int) (ty : String),
        SelectGateway db (MarkGatewayUp sel id) cid ty
          = SelectGateway db sel cid ty) ∧
    (MarkGatewayDown sel id).providers = sel.providers ∧
    (MarkGatewayUp sel id).providers = sel.providers ∧
    mapLookup (MarkGatewayDown sel id).healthStatus id = some false ∧
    mapLookup (MarkGatewayUp sel id).healthStatus id = some true := by
  refine ⟨?_, ?_, rfl, rfl, mapLookup_mapInsert_self _ _ _, mapLookup_mapInsert_self _ _ _⟩
  · intro db cid ty
    rw [selectGateway_eq, selectGateway_eq]
    simp only [MarkGatewayDown]
    rw [trySelect_mark_unknown sel id false h]
  · intro db cid ty
    rw [selectGateway_eq, selectGateway_eq]
    simp only [MarkGatewayUp]
    rw [trySelect_mark_unknown sel id true h]

/-- Witness for C7's amended theorem: marking the unregistered identifier
"9" in the fixture selector changes no selection outcome but does create
its health entry. -/
theorem mark_unknown_selection_invariant_witness :
    mapLookup wSel.providers "9" = none ∧
    SelectGateway wDB (MarkGatewayDown wSel "9") 1 "deposit"
      = SelectGateway wDB wSel 1 "deposit" ∧
    mapLookup (MarkGatewayDown wSel "9").healthStatus "9" = some false := by
  have h : mapLookup wSel.providers "9" = none := rfl
  exact ⟨h, (mark_unknown_selection_invariant wSel "9" h).1 wDB 1 "deposit",
    (mark_unknown_selection_invariant wSel "9" h).2.2.2.2.1⟩

/-- C2 counterexample: after the outcome sequence fail, fail, fail,
success, success (all in one counting window), gateway "1"'s breaker has
recorded 5 attempts with failure ratio 3/5 ≥ 0.5, yet it is still closed
— `ReadyToTrip` is consulted only when a failure is recorded — and the
next `ExecuteWithCircuitBreaker` call invokes the wrapped operation
instead of failing with the circuit-open error. -/
theorem breaker_count_state_alone_does_not_open :
    (mapLookup cbMgr5 "1").map (fun b => b.counts.requests) = some 5 ∧
    (mapLookup cbMgr5 "1").map
      (fun b => decide (2 * b.counts.totalFailures ≥ b.counts.requests)) = some true ∧
    (mapLookup cbMgr5 "1").map Breaker.state = some .closed ∧
    (ExecuteWithCircuitBreaker cbMgr5 "1" 100 (.ok ())).2.1 = true ∧
    (ExecuteWithCircuitBreaker cbMgr5 "1" 100 (.ok ())).2.2 = .ok () := by
  refine ⟨by decide, by decide, by decide, by decide, by decide⟩

/-- C2 amended: the breaker opens exactly when a *failure* is recorded
that brings the current window to ≥ 5 requests with ≥ 50% failures
(`ReadyToTrip` is evaluated only on recorded failures); once open, every
`ExecuteWithCircuitBreaker` call for that gateway up to the 60-second
cool-down (`now ≤ expiry`) is rejected with the circuit-open error, the
wrapped operation is not invoked, and the breaker is unchanged. -/
theorem breaker_open_rejects_and_trips_on_failure
    (mgr : List (String × Breaker)) (id : String) (b : Breaker) (now : Nat)
    (opRes : Except GoError Unit) (ge : GoError)
    (hb : mapLookup mgr id = some b) :
    ((b.state = .opened ∧ now ≤ b.expiry) →
      ExecuteWithCircuitBreaker mgr id now opRes
        = (mapInsert id b mgr, false, .error .openState)) ∧
    ((b.state = .closed ∧ (b.expiry = 0 ∨ now ≤ b.expiry) ∧ opRes = .error ge ∧
        readyToTrip (b.counts.onRequest.onFailure) = true) →
      (ExecuteWithCircuitBreaker mgr id now opRes).2.1 = true ∧
      (ExecuteWithCircuitBreaker mgr id now opRes).2.2 = .error ge ∧
      (mapLookup (ExecuteWithCircuitBreaker mgr id now opRes).1 id).map
        Breaker.state = some .opened ∧
      (mapLookup (ExecuteWithCircuitBreaker mgr id now opRes).1 id).map
        Breaker.expiry = some (now + gbTimeout)) := by
  obtain ⟨st, gen, cts, exp⟩ := b
  have hget : GetBreaker mgr id now = ⟨st, gen, cts, exp⟩ := by
    simp [GetBreaker, hb]
  constructor
  · rintro ⟨hst, hexp⟩
    have hst' : st = GBState.opened := hst
    subst hst'
    have hexp' : now ≤ exp := hexp
    simp only [ExecuteWithCircuitBreaker, gbExecute, hget, currentState]
    simp [Nat.not_lt.mpr hexp']
  · rintro ⟨hst, hexp, hop, htrip⟩
    have hst' : st = GBState.closed := hst
    subst hst'
    subst hop
    have hexp' : exp = 0 ∨ now ≤ exp := hexp
    have htrip' : readyToTrip (cts.onRequest.onFailure) = true := htrip
    have hnl : ¬ (exp ≠ 0 ∧ exp < now) := by
      rcases hexp' with h0 | hle
      · rintro ⟨hne, _⟩; exact hne h0
      · rintro ⟨_, hlt⟩; exact absurd hlt (Nat.not_lt.mpr hle)
    simp only [ExecuteWithCircuitBreaker, gbExecute, hget, currentState]
    simp only [if_neg hnl]
    simp only [afterRequest, currentState, if_neg hnl]
    simp only [gbOnFailure]
    simp [htrip', setState, toNewGeneration, mapLookup_mapInsert_self, gbTimeout]

/-- Witness for C2's amended theorem: a breaker open until time 160
rejects a call at time 120 without invoking the operation, and the
almost-tripped closed breaker trips to open with a 60-second cool-down on
its fifth recorded failure. -/
theorem breaker_open_rejects_and_trips_witness :
    (ExecuteWithCircuitBreaker [("1", wOpenBreaker)] "1" 120 (.ok ())
      = (mapInsert "1" wOpenBreaker [("1", wOpenBreaker)], false,
          .error .openState)) ∧
    (ExecuteWithCircuitBreaker [("1", wAlmostTripped)] "1" 100
        (.error (.msg "boom"))).2.1 = true ∧
    (mapLookup (ExecuteWithCircuitBreaker [("1", wAlmostTripped)] "1" 100
        (.error (.msg "boom"))).1 "1").map Breaker.state = some .opened := by
  have h₁ := (breaker_open_rejects_and_trips_on_failure [("1", wOpenBreaker)]
    "1" wOpenBreaker 120 (.ok ()) (.msg "boom") rfl).1 ⟨rfl, by decide⟩
  have h₂ := (breaker_open_rejects_and_trips_on_failure [("1", wAlmostTripped)]
    "1" wAlmostTripped 100 (.error (.msg "boom")) (.msg "boom") rfl).2
    ⟨rfl, Or.inr (by decide), rfl, by decide⟩
  exact ⟨h₁, h₂.1, h₂.2.2.1⟩

/-- If the first `s` invocations starting at index `i` fail and the next
succeeds, the retry loop stops after `s + 1` invocations with success. -/
theorem retryAux_success (operation : Nat → Except GoError Unit)
    (es : Nat → GoError) (m : Nat) :
    ∀ (s k i : Nat) (last : Option GoError), s < k →
      (∀ j, j < s → operation (i + j) = .error (es (i + j))) →
      operation (i + s) = .ok () →
      retryAux operation m k i last = (.ok (), s + 1) := by
  intro s
  induction s with
  | zero =>
      intro k i last hk hf hs
      match k, hk with
      | k' + 1, _ =>
          unfold retryAux
          rw [show i + 0 = i from rfl] at hs
          rw [hs]
  | succ s ih =>
      intro k i last hk hf hs
      match k, hk with
      | k' + 1, hk =>
          unfold retryAux
          have h0 : operation i = .error (es i) := by
            have := hf 0 (Nat.succ_pos s)
            simpa using this
          rw [h0]
          have hf' : ∀ j, j < s → operation (i + 1 + j) = .error (es (i + 1 + j)) := by
            intro j hj
            have := hf (j + 1) (by omega)
            have harith : i + (j + 1) = i + 1 + j := by omega
            rw [harith] at this
            exact this
          have hs' : operation (i + 1 + s) = .ok () := by
            have harith : i + (s + 1) = i + 1 + s := by omega
            rw [harith] at hs
            exact hs
          dsimp only
          rw [ih k' (i + 1) (some (es i)) (by omega) hf' hs']

/-- If all `k ≥ 1` invocations starting at index `i` fail, the retry loop
performs exactly `k` invocations and reports exhaustion wrapping the last
error. -/
theorem retryAux_exhausted (operation : Nat → Except GoError Unit)
    (es : Nat → GoError) (m : Nat) :
    ∀ (k i : Nat) (last : Option GoError), 1 ≤ k →
      (∀ j, j < k → operation (i + j) = .error (es (i + j))) →
      retryAux operation m k i last
        = (.error (.retriesExhausted m (es (i + k - 1))), k) := by
  intro k
  induction k with
  | zero => intro i last hk _; exact absurd hk (by omega)
  | succ k ih =>
      intro i last hk hf
      have h0 : operation i = .error (es i) := by
        have := hf 0 (Nat.succ_pos k)
        simpa using this
      cases k with
      | zero =>
          unfold retryAux
          rw [h0]
          unfold retryAux
          simp
      | succ k' =>
          unfold retryAux
          rw [h0]
          have hf' : ∀ j, j < k' + 1 → operation (i + 1 + j) = .error (es (i + 1 + j)) := by
            intro j hj
            have := hf (j + 1) (by omega)
            have harith : i + (j + 1) = i + 1 + j := by omega
            rw [harith] at this
            exact this
          dsimp only
          rw [ih (i + 1) (some (es i)) (by omega) hf']
          have harith : i + 1 + (k' + 1) - 1 = i + (k' + 1 + 1) - 1 := by omega
          rw [harith]

/-- C5: an operation that fails its first `N − 1` invocations and then
succeeds makes `RetryOperationWithBackoff` (with `maxRetries ≥ N`) return
success after exactly `N` invocations; an operation that fails every
invocation makes it fail with the retries-exhausted error wrapping the
last underlying error, after exactly `maxRetries` invocations. -/
theorem retry_invocation_counts (operation : Nat → Except GoError Unit)
    (es : Nat → GoError) (N maxRetries : Nat) :
    (1 ≤ N → N ≤ maxRetries →
      (∀ j, j < N - 1 → operation j = .error (es j)) →
      operation (N - 1) = .ok () →
      RetryOperationWithBackoff operation maxRetries = (.ok (), N)) ∧
    (1 ≤ maxRetries →
      (∀ j, j < maxRetries → operation j = .error (es j)) →
      RetryOperationWithBackoff operation maxRetries
        = (.error (.retriesExhausted maxRetries (es (maxRetries - 1))),
            maxRetries)) := by
  constructor
  · intro hN hNm hf hs
    unfold RetryOperationWithBackoff
    have := retryAux_success operation es maxRetries (N - 1) maxRetries 0 none
      (by omega) (by intro j hj; simpa using hf j hj) (by simpa using hs)
    rw [this]
    congr 1
    omega
  · intro hm hf
    unfold RetryOperationWithBackoff
    have := retryAux_exhausted operation es maxRetries maxRetries 0 none hm
      (by intro j hj; simpa using hf j hj)
    simpa using this

/-- Witness for C5: an operation failing twice then succeeding, retried
with budget 5, succeeds on invocation 3; an always-failing operation with
budget 3 exhausts after 3 invocations. -/
theorem retry_invocation_counts_witness :
    RetryOperationWithBackoff
        (fun i => if i < 2 then .error (.msg "transient") else .ok ()) 5
      = (.ok (), 3) ∧
    RetryOperationWithBackoff (fun _ => .error (.msg "down")) 3
      = (.error (.retriesExhausted 3 (.msg "down")), 3) := by
  constructor
  · exact (retry_invocation_counts
      (fun i => if i < 2 then .error (.msg "transient") else .ok ())
      (fun _ => .msg "transient") 3 5).1 (by omega) (by omega)
      (by intro j hj; simp; omega) (by simp)
  · exact (retry_invocation_counts (fun _ => .error (.msg "down"))
      (fun _ => .msg "down") 3 3).2 (by omega) (fun j hj => rfl)

/-- C8: for every callback payload carrying a non-empty gateway identifier
whose transaction-status update succeeds, `HandleCallback` succeeds and
marks that gateway up — the reported status `cb.status` is arbitrary here,
so health is restored whether the callback reports completed, processing
or failed. -/
theorem callback_marks_gateway_up (s : ServiceState) (cb : CallbackData)
    (hgid : cb.gatewayID ≠ "")
    (htx : (mapLookup s.db.transactions cb.transactionID).isSome) :
    (HandleCallback s cb).2 = .ok () ∧
    mapLookup (HandleCallback s cb).1.selector.healthStatus cb.gatewayID
      = some true := by
  obtain ⟨t, ht⟩ := Option.isSome_iff_exists.mp htx
  unfold HandleCallback
  simp only [MockDB.UpdateTransactionStatus, ht]
  simp [hgid, MarkGatewayUp, mapLookup_mapInsert_self]

/-- Witness for C8: a callback for stored transaction 123 reporting the
*failed* status still restores gateway "1"'s health. -/
theorem callback_marks_gateway_up_witness :
    (HandleCallback wSvcTx ⟨123, "failed", "declined", "r-9", "1", ""⟩).2 = .ok () ∧
    mapLookup (HandleCallback wSvcTx
        ⟨123, "failed", "declined", "r-9", "1", ""⟩).1.selector.healthStatus "1"
      = some true :=
  callback_marks_gateway_up wSvcTx ⟨123, "failed", "declined", "r-9", "1", ""⟩
    (by decide) (by decide)

/-- C10: if the transaction-status update fails (unknown transaction),
`HandleCallback` returns the wrapped error and the selector (and the rest
of the service state) is untouched — no `MarkGatewayUp` happens even when
the payload carries a gateway identifier. -/
theorem callback_update_failure_no_markup (s : ServiceState) (cb : CallbackData)
    (htx : mapLookup s.db.transactions cb.transactionID = none) :
    (HandleCallback s cb).1.selector = s.selector ∧
    (HandleCallback s cb).1.db = s.db ∧
    (HandleCallback s cb).1.breakers = s.breakers ∧
    (HandleCallback s cb).2
      = .error (.wrap "failed to update transaction" (.msg "transaction not found")) := by
  unfold HandleCallback
  simp [MockDB.UpdateTransactionStatus, htx]

/-- Witness for C10: a callback naming unknown transaction 999 with a
gateway identifier fails and leaves the selector untouched. -/
theorem callback_update_failure_no_markup_witness :
    (HandleCallback wSvc ⟨999, "completed", "", "r", "1", ""⟩).1.selector = wSvc.selector ∧
    (HandleCallback wSvc ⟨999, "completed", "", "r", "1", ""⟩).2
      = .error (.wrap "failed to update transaction" (.msg "transaction not found")) := by
  have h := callback_update_failure_no_markup wSvc
    ⟨999, "completed", "", "r", "1", ""⟩ rfl
  exact ⟨h.1, h.2.2.2⟩

/-- C4: when user resolution fails, or gateway selection fails, the whole
initiation call returns the wrapped error with the service state — DB,
selector and breakers — untouched: no transaction record is created and no
provider operation (nor any breaker activity) takes place.  In particular,
when no entry of the user's region qualifies, the surfaced error wraps
`NoAvailableGateway` (and `errors.Is` recovers the sentinel). -/
theorem initiation_failure_creates_no_record (s : ServiceState) (now : Nat)
    (req : TransactionRequest) (e : GoError) :
    (MockDB.GetUserByID s.db req.userID = .error e →
      ProcessDeposit s now req = (s, .error (.wrap "failed to get user" e)) ∧
      ProcessWithdrawal s now req = (s, .error (.wrap "failed to get user" e))) ∧
    (∀ u : User, MockDB.GetUserByID s.db req.userID = .ok u →
      SelectGateway s.db s.selector u.countryID consts.Deposit = .error e →
      ProcessDeposit s now req
        = (s, .error (.wrap "failed to select gateway" e)) ∧
      ProcessWithdrawal s now req
        = (s, .error (.wrap "failed to select gateway" e))) ∧
    (∀ u : User, MockDB.GetUserByID s.db req.userID = .ok u →
      (∀ gw ∈ gwsOf s.db u.countryID, qualifies s.selector gw = false) →
      ProcessDeposit s now req
        = (s, .error (.wrap "failed to select gateway" .noAvailableGateway)) ∧
      ProcessWithdrawal s now req
        = (s, .error (.wrap "failed to select gateway" .noAvailableGateway)) ∧
      GoError.is (.wrap "failed to select gateway" .noAvailableGateway)
        .noAvailableGateway = true) := by
  refine ⟨?_, ?_, ?_⟩
  · intro h
    constructor <;>
      · simp only [ProcessDeposit, ProcessWithdrawal, processTransaction]
        simp [h]
  · intro u hu hsel
    have hselW : SelectGateway s.db s.selector u.countryID consts.Withdrawal
        = .error e := hsel
    constructor
    · unfold ProcessDeposit processTransaction
      simp [hu, hsel]
    · unfold ProcessWithdrawal processTransaction
      simp [hu, hselW]
  · intro u hu hall
    have hselD := selectGateway_none_qualify s.db s.selector u.countryID
      consts.Deposit hall
    have hselW := selectGateway_none_qualify s.db s.selector u.countryID
      consts.Withdrawal hall
    refine ⟨?_, ?_, by decide⟩
    · unfold ProcessDeposit processTransaction
      simp [hu, hselD]
    · unfold ProcessWithdrawal processTransaction
      simp [hu, hselW]

/-- Witness for C4: an unknown user aborts initiation with the state
untouched, and a user whose region has no priority list fails with an
error wrapping `NoAvailableGateway`, again with no record created. -/
theorem initiation_failure_creates_no_record_witness :
    ProcessDeposit wSvc 100 ⟨999, 50, "USD"⟩
      = (wSvc, .error (.wrap "failed to get user" (.msg "sql: no rows in result set"))) ∧
    ProcessDeposit wSvc 100 ⟨2, 50, "USD"⟩
      = (wSvc, .error (.wrap "failed to select gateway" .noAvailableGateway)) ∧
    GoError.is (.wrap "failed to select gateway" .noAvailableGateway)
      .noAvailableGateway = true := by
  have h₁ := (initiation_failure_creates_no_record wSvc 100 ⟨999, 50, "USD"⟩
    (.msg "sql: no rows in result set")).1 rfl
  have h₂ := (initiation_failure_creates_no_record wSvc 100 ⟨2, 50, "USD"⟩
    (.msg "unused")).2.2 wUser2 rfl (by decide)
  exact ⟨h₁.1, h₂.1, h₂.2.2⟩

/-- Once user resolution and selection succeed, the orchestrator body is
the create / breaker-wrapped call / status-write pipeline. -/
theorem processTransaction_shape (s : ServiceState) (now : Nat)
    (req : TransactionRequest) (kind : String)
    (opOutcome : Provider → Except GoError (Option TransactionResponse))
    (u : User) (p : Provider)
    (hu : MockDB.GetUserByID s.db req.userID = .ok u)
    (hsel : SelectGateway s.db s.selector u.countryID kind = .ok p) :
    processTransaction s now req kind opOutcome =
      (let tx := pendingTx req kind u p
       let db₁ := (MockDB.CreateTransaction s.db tx).1
       let txID := s.db.nextTxID
       let cbr := ExecuteWithCircuitBreaker s.breakers p.id now
         (gatewayOpResult (opOutcome p))
       let db₂ := if cbr.2.1 then saveReference db₁ txID (opOutcome p) else db₁
       match cbr.2.2 with
       | .error e =>
           (⟨(MockDB.UpdateTransactionStatus db₂ txID "failed" (errString e)).1,
              MarkGatewayDown s.selector p.id, cbr.1⟩, .error e)
       | .ok _ =>
           (⟨(MockDB.UpdateTransactionStatus db₂ txID "processing" "").1,
              s.selector, cbr.1⟩, .ok (capturedResponse (opOutcome p)))) := by
  unfold processTransaction
  simp only [hu, hsel]
  rfl

/-- Core of C3, for either transaction kind: if the breaker-wrapped
provider call fails, the provider is marked down, the freshly created
record is rewritten to `failed` with the error detail, and the error is
returned. -/
theorem processTransaction_failure (s : ServiceState) (now : Nat)
    (req : TransactionRequest) (kind : String)
    (opOutcome : Provider → Except GoError (Option TransactionResponse))
    (u : User) (p : Provider) (e : GoError)
    (hu : MockDB.GetUserByID s.db req.userID = .ok u)
    (hsel : SelectGateway s.db s.selector u.countryID kind = .ok p)
    (he : (ExecuteWithCircuitBreaker s.breakers p.id now
        (gatewayOpResult (opOutcome p))).2.2 = .error e) :
    (processTransaction s now req kind opOutcome).2 = .error e ∧
    mapLookup (processTransaction s now req kind opOutcome).1.selector.healthStatus
      p.id = some false ∧
    (mapLookup (processTransaction s now req kind opOutcome).1.db.transactions
      s.db.nextTxID).map Transaction.status = some "failed" ∧
    (mapLookup (processTransaction s now req kind opOutcome).1.db.transactions
      s.db.nextTxID).map Transaction.errorMessage = some (errString e) := by
  rw [processTransaction_shape s now req kind opOutcome u p hu hsel]
  simp only [he]
  have hcreate := createTransaction_lookup s.db (pendingTx req kind u p)
  obtain ⟨ref, href⟩ := afterSave_lookup
    (ExecuteWithCircuitBreaker s.breakers p.id now
      (gatewayOpResult (opOutcome p))).2.1
    ((MockDB.CreateTransaction s.db (pendingTx req kind u p)).1)
    s.db.nextTxID (opOutcome p) _ hcreate
  have hupd := updateStatus_lookup _ s.db.nextTxID "failed" (errString e) _ href
  refine ⟨trivial, ?_, ?_, ?_⟩
  · simp [MarkGatewayDown, mapLookup_mapInsert_self]
  · simp only [hupd]; rfl
  · simp only [hupd]; rfl

/-- Core of C9, for either transaction kind: whatever the provider call's
outcome, the record created for this request carries
`gatewayID = atoi p.id`. -/
theorem processTransaction_gatewayID (s : ServiceState) (now : Nat)
    (req : TransactionRequest) (kind : String)
    (opOutcome : Provider → Except GoError (Option TransactionResponse))
    (u : User) (p : Provider)
    (hu : MockDB.GetUserByID s.db req.userID = .ok u)
    (hsel : SelectGateway s.db s.selector u.countryID kind = .ok p) :
    (mapLookup (processTransaction s now req kind opOutcome).1.db.transactions
      s.db.nextTxID).map Transaction.gatewayID = some (atoi p.id) := by
  rw [processTransaction_shape s now req kind opOutcome u p hu hsel]
  have hcreate := createTransaction_lookup s.db (pendingTx req kind u p)
  obtain ⟨ref, href⟩ := afterSave_lookup
    (ExecuteWithCircuitBreaker s.breakers p.id now
      (gatewayOpResult (opOutcome p))).2.1
    ((MockDB.CreateTransaction s.db (pendingTx req kind u p)).1)
    s.db.nextTxID (opOutcome p) _ hcreate
  cases hcb : (ExecuteWithCircuitBreaker s.breakers p.id now
      (gatewayOpResult (opOutcome p))).2.2 with
  | error e =>
      have hupd := updateStatus_lookup _ s.db.nextTxID "failed" (errString e) _ href
      simp only [hcb]
      simp only [hupd]
      rfl
  | ok v =>
      have hupd := updateStatus_lookup _ s.db.nextTxID "processing" "" _ href
      simp only [hcb]
      simp only [hupd]
      rfl

/-- C3: for any deposit or withdrawal on which the record was created and
the breaker-wrapped provider call then failed, the call returns that error,
marks the provider down, and first rewrites the record's status to `failed`
with the error detail — the record does not remain `pending`. -/
theorem provider_failure_writes_failed_status (s : ServiceState) (now : Nat)
    (req : TransactionRequest) (u : User) (p : Provider) (e : GoError)
    (hu : MockDB.GetUserByID s.db req.userID = .ok u)
    (hselD : SelectGateway s.db s.selector u.countryID consts.Deposit = .ok p) :
    ((ExecuteWithCircuitBreaker s.breakers p.id now
        (gatewayOpResult p.depositResult)).2.2 = .error e →
      (ProcessDeposit s now req).2 = .error e ∧
      mapLookup (ProcessDeposit s now req).1.selector.healthStatus p.id
        = some false ∧
      (mapLookup (ProcessDeposit s now req).1.db.transactions
        s.db.nextTxID).map Transaction.status = some "failed" ∧
      (mapLookup (ProcessDeposit s now req).1.db.transactions
        s.db.nextTxID).map Transaction.errorMessage = some (errString e)) ∧
    ((ExecuteWithCircuitBreaker s.breakers p.id now
        (gatewayOpResult p.withdrawResult)).2.2 = .error e →
      (ProcessWithdrawal s now req).2 = .error e ∧
      mapLookup (ProcessWithdrawal s now req).1.selector.healthStatus p.id
        = some false ∧
      (mapLookup (ProcessWithdrawal s now req).1.db.transactions
        s.db.nextTxID).map Transaction.status = some "failed" ∧
      (mapLookup (ProcessWithdrawal s now req).1.db.transactions
        s.db.nextTxID).map Transaction.errorMessage = some (errString e)) := by
  have hselW : SelectGateway s.db s.selector u.countryID consts.Withdrawal
      = .ok p := hselD
  exact ⟨fun he => processTransaction_failure s now req consts.Deposit
      Provider.depositResult u p e hu hselD he,
    fun he => processTransaction_failure s now req consts.Withdrawal
      Provider.withdrawResult u p e hu hselW he⟩

/-- Witness for C3: at the fixture, the selected provider "1" fails its
deposit call; the record created under id 10 ends `failed` with the
wrapped error detail and the provider is marked down. -/
theorem provider_failure_writes_failed_status_witness :
    (ProcessDeposit wSvc 100 ⟨1, 100, "USD"⟩).2
      = .error (.wrap "gateway processing failed" (.msg "gateway unavailable")) ∧
    mapLookup (ProcessDeposit wSvc 100 ⟨1, 100, "USD"⟩).1.selector.healthStatus "1"
      = some false ∧
    (mapLookup (ProcessDeposit wSvc 100 ⟨1, 100, "USD"⟩).1.db.transactions 10).map
      Transaction.status = some "failed" ∧
    (mapLookup (ProcessDeposit wSvc 100 ⟨1, 100, "USD"⟩).1.db.transactions 10).map
      Transaction.errorMessage
      = some (errString (.wrap "gateway processing failed" (.msg "gateway unavailable"))) :=
  (provider_failure_writes_failed_status wSvc 100 ⟨1, 100, "USD"⟩ wUser wProvFail
    (.wrap "gateway processing failed" (.msg "gateway unavailable"))
    rfl rfl).1 rfl

/-- A string that is not a decimal integer literal makes `strconv.Atoi`
return value `0` (with the discarded syntax error). -/
theorem atoi_not_decimal (s : String) (h : decimalIntLit s = false) :
    atoi s = 0 := by
  unfold atoi goAtoi
  unfold decimalIntLit at h
  cases hd : s.data with
  | nil => simp
  | cons c rest =>
      rw [hd] at h
      dsimp only at h ⊢
      generalize hds : (if c = '-' || c = '+' then rest else c :: rest) = ds at h ⊢
      cases hde : ds.isEmpty with
      | true => simp [hde]
      | false =>
          have h2 : ds.all Char.isDigit = false := by
            cases h2 : ds.all Char.isDigit
            · rfl
            · rw [hde, h2] at h; exact absurd h (by simp)
          simp [hde, h2]

/-- C9: whenever initiation selects a provider whose identifier string is
not a decimal integer, the created transaction record has `gatewayID = 0`:
`atoi` discards the `strconv.Atoi` error and keeps the zero value. -/
theorem nondecimal_id_creates_gatewayID_zero (s : ServiceState) (now : Nat)
    (req : TransactionRequest) (u : User) (p : Provider)
    (hu : MockDB.GetUserByID s.db req.userID = .ok u)
    (hid : decimalIntLit p.id = false) :
    (SelectGateway s.db s.selector u.countryID consts.Deposit = .ok p →
      (mapLookup (ProcessDeposit s now req).1.db.transactions
        s.db.nextTxID).map Transaction.gatewayID = some 0) ∧
    (SelectGateway s.db s.selector u.countryID consts.Withdrawal = .ok p →
      (mapLookup (ProcessWithdrawal s now req).1.db.transactions
        s.db.nextTxID).map Transaction.gatewayID = some 0) := by
  constructor
  · intro hsel
    have := processTransaction_gatewayID s now req consts.Deposit
      Provider.depositResult u p hu hsel
    rwa [atoi_not_decimal p.id hid] at this
  · intro hsel
    have := processTransaction_gatewayID s now req consts.Withdrawal
      Provider.withdrawResult u p hu hsel
    rwa [atoi_not_decimal p.id hid] at this

/-- Witness for C9: with the provider registered under priority-list key
"1" but carrying identifier "PAYPAL-X", the deposit's record is created
with `gatewayID = 0`. -/
theorem nondecimal_id_creates_gatewayID_zero_witness :
    decimalIntLit wProvAlpha.id = false ∧
    (mapLookup (ProcessDeposit wSvcAlpha 100 ⟨1, 100, "USD"⟩).1.db.transactions
      10).map Transaction.gatewayID = some 0 :=
  ⟨by decide,
    (nondecimal_id_creates_gatewayID_zero wSvcAlpha 100 ⟨1, 100, "USD"⟩ wUser
      wProvAlpha rfl (by decide)).1 rfl⟩

end PaymentGateway
